import Mathlib

/-!
Verification of `poem-openapi/src/types/external/result.rs`: the `Type`,
`ParseFromJSON` and `ToJSON` implementations for Rust's `Result<T, E>`.
The JSON tree, the error type, the schema descriptors and the registry are
shallow embeddings of the `serde_json` / `poem-openapi` collaborators; the
codec, name, schema and registration functions are translated directly
from the source file.
-/

set_option maxRecDepth 4000

/-- JSON wire value, the shallow embedding of `serde_json::Value`: an untyped
tree of null / bool / number / string / array / object.  Objects are
association lists from keys to values (serde keeps keys unique).  Numbers are
modelled as integers, which covers every numeric literal the claims touch. -/
inductive Json where
  | null : Json
  | bool (b : Bool) : Json
  | num (n : Int) : Json
  | str (s : String) : Json
  | arr (elems : List Json) : Json
  | obj (fields : List (String × Json)) : Json

/-- Key lookup in a JSON object's field list, the embedding of
`serde_json::Map` access: the first binding of the key, if any. -/
def lookupKey (k : String) : List (String × Json) → Option Json
  | [] => none
  | (k2, v) :: rest => if k2 = k then some v else lookupKey k rest

/-- Whether a JSON value is an object, mirroring `Value::as_object_mut`
succeeding. -/
def Json.isObj : Json → Bool
  | Json.obj _ => true
  | _ => false

/-- Embedding of serializing a Rust `Option<Value>` inside the `json!` macro:
`None` serializes as JSON `null`, `Some(v)` as `v`. -/
def optJson : Option Json → Json
  | none => Json.null
  | some v => v

/-- Modelled from the spec: the error type `ParseError` lives in
`poem-openapi/src/types/error.rs`, which is not under `src/`.  Spec §7 gives
the taxonomy: `MissingInput` (constructed by `ParseError::expected_input()`),
`InvalidShape` (constructed by `ParseError::custom(msg)`),
`UnrecognizedShape` carrying the offending JSON value (constructed by
`ParseError::expected_type(value)`), and `PayloadDecodeFailure` whose message
is forwarded verbatim (constructed by `ParseError::from(message)`).
Constructors keep the names of the source's call sites. -/
inductive ParseError where
  | expected_input : ParseError
  | custom (msg : String) : ParseError
  | expected_type (value : Json) : ParseError
  | from_message (msg : String) : ParseError

/-- Modelled from the spec: `ParseError::into_message` extracts the error's
message text (§4.4 step 5, §7).  For `custom` and `from_message` the message
is the carried string; the other two have fixed texts not pinned down by the
spec. -/
def ParseError.into_message : ParseError → String
  | ParseError.expected_input => "expected input"
  | ParseError.custom msg => msg
  | ParseError.expected_type _ => "expected a value of the expected type"
  | ParseError.from_message msg => msg

/-- Modelled from the spec: `MetaDiscriminatorObject` from the registry
module (not under `src/`), the discriminator declaration of an OpenAPI
union schema.  Only its presence or absence matters to the claims. -/
structure MetaDiscriminatorObject where
  property_name : String

mutual

/-- Schema descriptor reference, the embedding of `MetaSchemaRef` from the
registry module: either a named reference to a registered schema or an
inline schema. -/
inductive MetaSchemaRef where
  | Reference (name : String) : MetaSchemaRef
  | Inline (schema : MetaSchema) : MetaSchemaRef

/-- Modelled from the spec: `MetaSchema` from the registry module (not under
`src/`), restricted to the fields the source file sets or the claims
inspect: `rust_typename`, `ty`, `discriminator`, `any_of`, `all_of`,
`properties` and `required`. -/
inductive MetaSchema where
  | mk (rust_typename : Option String) (ty : String)
      (discriminator : Option MetaDiscriminatorObject)
      (any_of : List MetaSchemaRef) (all_of : List MetaSchemaRef)
      (properties : List (String × MetaSchemaRef))
      (required : List String) : MetaSchema

end

/-- Field accessor for the `rust_typename` field of a `MetaSchema`. -/
def MetaSchema.rust_typename : MetaSchema → Option String
  | MetaSchema.mk v _ _ _ _ _ _ => v

/-- Field accessor for the `ty` field of a `MetaSchema`. -/
def MetaSchema.ty : MetaSchema → String
  | MetaSchema.mk _ v _ _ _ _ _ => v

/-- Field accessor for the `discriminator` field of a `MetaSchema`. -/
def MetaSchema.discriminator : MetaSchema → Option MetaDiscriminatorObject
  | MetaSchema.mk _ _ v _ _ _ _ => v

/-- Field accessor for the `any_of` field of a `MetaSchema`. -/
def MetaSchema.any_of : MetaSchema → List MetaSchemaRef
  | MetaSchema.mk _ _ _ v _ _ _ => v

/-- Field accessor for the `all_of` field of a `MetaSchema`. -/
def MetaSchema.all_of : MetaSchema → List MetaSchemaRef
  | MetaSchema.mk _ _ _ _ v _ _ => v

/-- Field accessor for the `properties` field of a `MetaSchema`. -/
def MetaSchema.properties : MetaSchema → List (String × MetaSchemaRef)
  | MetaSchema.mk _ _ _ _ _ v _ => v

/-- Field accessor for the `required` field of a `MetaSchema`. -/
def MetaSchema.required : MetaSchema → List String
  | MetaSchema.mk _ _ _ _ _ _ v => v

/-- The empty schema `MetaSchema::ANY`: every field at its default. -/
def MetaSchema.ANY : MetaSchema :=
  MetaSchema.mk none "" none [] [] [] []

/-- Modelled from the spec: `MetaSchemaRef::merge` from the registry module
(not under `src/`).  Per §3 and §4.1, merging a payload's descriptor with a
descriptor carrying extra properties yields the payload's descriptor
extended with those properties, each added property marked as a required
field; a named reference is merged by wrapping it in an inline `all_of`
alongside the extension. -/
def MetaSchemaRef.merge : MetaSchemaRef → MetaSchema → MetaSchemaRef
  | MetaSchemaRef.Inline base, other =>
      MetaSchemaRef.Inline (MetaSchema.mk
        base.rust_typename base.ty base.discriminator
        base.any_of base.all_of
        (base.properties ++ other.properties)
        (base.required ++ other.properties.map Prod.fst))
  | MetaSchemaRef.Reference n, other =>
      MetaSchemaRef.Inline (MetaSchema.mk
        none "" none []
        [MetaSchemaRef.Reference n]
        other.properties
        (other.required ++ other.properties.map Prod.fst))

/-- Modelled from the spec: the `Registry` (§3) is a process-scoped mapping
from stable type name to schema descriptor, populated by the `register`
calls of the payload types. -/
structure Registry where
  schemas : List (String × MetaSchema)

/-- Lookup of a registered schema by its stable name. -/
def Registry.lookupName (r : Registry) (n : String) : Option MetaSchema :=
  (r.schemas.find? (fun p => p.1 = n)).map Prod.snd

/-- The Type capability set of spec §6: everything the source's trait bounds
`T: Type + ParseFromJSON + ToJSON` provide for a payload type.  The
source's generic functions are parametrised by one such record per payload
type. -/
structure TypeCap (α : Type) where
  name : String
  schema_ref : MetaSchemaRef
  register : Registry → Registry
  to_json : α → Option Json
  parse_from_json : Option Json → Except ParseError α

/-- The two-variant value `Result<T, E>` the source implements the traits
for: `Ok` holds a success payload, `Err` a failure payload. -/
inductive RustResult (α β : Type) where
  | Ok (t : α) : RustResult α β
  | Err (e : β) : RustResult α β

namespace RustResult

/-- Translation of `fn name()` of the `Type` impl:
`format!("result<{}, {}>", T::name(), E::name())`. -/
def name (Tc : TypeCap α) (Ec : TypeCap β) : String :=
  s!"result<{Tc.name}, {Ec.name}>"

/-- Translation of `fn schema_ref()` of the `Type` impl: an inline schema
with `rust_typename`, `ty: "object"`, no discriminator, and an `any_of` of
the two merged alternatives. -/
def schema_ref (Tc : TypeCap α) (Ec : TypeCap β) : MetaSchemaRef :=
  MetaSchemaRef.Inline (MetaSchema.mk
    (some "union::without_discriminator::Result")
    "object"
    none
    [ Tc.schema_ref.merge (MetaSchema.mk none "" none [] []
        [("ok", Tc.schema_ref)] []),
      Ec.schema_ref.merge (MetaSchema.mk none "" none [] []
        [("err", Ec.schema_ref)] []) ]
    [] [] [])

/-- Translation of `fn register(registry)` of the `Type` impl:
`T::register(registry); E::register(registry);`. -/
def register (Tc : TypeCap α) (Ec : TypeCap β) (r : Registry) : Registry :=
  Ec.register (Tc.register r)

/-- Translation of `fn to_json(&self)` of the `ToJSON` impl:
`Ok(t)` encodes to `{"ok": t.to_json()}` and `Err(e)` to
`{"err": e.to_json()}`, the payload's optional JSON reified by `json!`. -/
def to_json (Tc : TypeCap α) (Ec : TypeCap β) : RustResult α β → Option Json
  | RustResult.Ok t => some (Json.obj [("ok", optJson (Tc.to_json t))])
  | RustResult.Err e => some (Json.obj [("err", optJson (Ec.to_json e))])

/-- Translation of `fn parse_from_json(value)` of the `ParseFromJSON` impl:
absent input fails with `expected_input`; a non-object fails with
`custom("expected an object")`; a key `ok` is decoded as `T`, else a key
`err` as `E`, payload failures forwarded through `into_message`; an object
with neither key fails with `expected_type` carrying the value. -/
def parse_from_json (Tc : TypeCap α) (Ec : TypeCap β) :
    Option Json → Except ParseError (RustResult α β)
  | none => Except.error ParseError.expected_input
  | some value =>
    match value with
    | Json.obj json_map =>
      match lookupKey "ok" json_map with
      | some ok_value =>
        match Tc.parse_from_json (some ok_value) with
        | Except.ok t => Except.ok (RustResult.Ok t)
        | Except.error e =>
            Except.error (ParseError.from_message e.into_message)
      | none =>
        match lookupKey "err" json_map with
        | some err_value =>
          match Ec.parse_from_json (some err_value) with
          | Except.ok e2 => Except.ok (RustResult.Err e2)
          | Except.error e =>
              Except.error (ParseError.from_message e.into_message)
        | none => Except.error (ParseError.expected_type value)
    | _ => Except.error (ParseError.custom "expected an object")

end RustResult

/-- Modelled from the spec: a concrete payload capability for integers
(spec §8, T = integer), with the evident JSON codec used by the source's
tests: `10` encodes to the JSON number `10`. -/
def intCap : TypeCap Int where
  name := "integer"
  schema_ref := MetaSchemaRef.Inline (MetaSchema.mk none "integer" none [] [] [] [])
  register := fun r => r
  to_json := fun n => some (Json.num n)
  parse_from_json := fun v =>
    match v with
    | some (Json.num n) => Except.ok n
    | some _ => Except.error (ParseError.custom "expected an integer")
    | none => Except.error ParseError.expected_input

/-- Modelled from the spec: a concrete payload capability for strings
(spec §8, E = string), with the evident JSON codec used by the source's
tests: `"invalid"` encodes to the JSON string `"invalid"`. -/
def strCap : TypeCap String where
  name := "string"
  schema_ref := MetaSchemaRef.Inline (MetaSchema.mk none "string" none [] [] [] [])
  register := fun r => r
  to_json := fun s => some (Json.str s)
  parse_from_json := fun v =>
    match v with
    | some (Json.str s) => Except.ok s
    | some _ => Except.error (ParseError.custom "expected a string")
    | none => Except.error ParseError.expected_input

example : RustResult.to_json intCap strCap (RustResult.Ok 10) =
    some (Json.obj [("ok", Json.num 10)]) := rfl

example : RustResult.parse_from_json intCap strCap
    (some (Json.obj [("ok", Json.num 10)])) =
    Except.ok (RustResult.Ok (10 : Int)) := rfl

example : RustResult.parse_from_json intCap strCap
    (some (Json.obj [("err", Json.str "invalid")])) =
    Except.ok (RustResult.Err "invalid") := rfl

/-- Unfolding equation for the decoder on an object input, used by the claim
proofs: the result is driven by the lookups of `ok` and then `err`. -/
theorem parse_from_json_obj (Tc : TypeCap α) (Ec : TypeCap β)
    (m : List (String × Json)) :
    RustResult.parse_from_json Tc Ec (some (Json.obj m)) =
      match lookupKey "ok" m with
      | some ok_value =>
        (match Tc.parse_from_json (some ok_value) with
         | Except.ok t => Except.ok (RustResult.Ok t)
         | Except.error e =>
             Except.error (ParseError.from_message e.into_message))
      | none =>
        match lookupKey "err" m with
        | some err_value =>
          (match Ec.parse_from_json (some err_value) with
           | Except.ok e2 => Except.ok (RustResult.Err e2)
           | Except.error e =>
               Except.error (ParseError.from_message e.into_message))
        | none => Except.error (ParseError.expected_type (Json.obj m)) := rfl

/-- C7: `name()` for `Result<T, E>` equals the concatenation
`"result<" + T::name() + ", " + E::name() + ">"`, for every pair of payload
capabilities. -/
theorem name_is_concat (Tc : TypeCap α) (Ec : TypeCap β) :
    RustResult.name Tc Ec = "result<" ++ Tc.name ++ ", " ++ Ec.name ++ ">" := rfl

/-- C8: `register` performs exactly T's registration followed by E's; in
particular, when the composite `T::register` then `E::register` leaves the
`result<...>` name unregistered, `register` does too (it inserts nothing of
its own). -/
theorem register_is_delegation (Tc : TypeCap α) (Ec : TypeCap β) (r : Registry) :
    RustResult.register Tc Ec r = Ec.register (Tc.register r) ∧
    (Registry.lookupName (Ec.register (Tc.register r)) (RustResult.name Tc Ec) = none →
      Registry.lookupName (RustResult.register Tc Ec r) (RustResult.name Tc Ec) = none) :=
  ⟨rfl, fun h => h⟩

/-- Witness for C8 at the integer/string capabilities and the empty
registry: neither payload registers anything, so the `result<...>` name
stays unregistered. -/
theorem register_is_delegation_witness :
    Registry.lookupName (RustResult.register intCap strCap (Registry.mk []))
      (RustResult.name intCap strCap) = none :=
  (register_is_delegation intCap strCap (Registry.mk [])).2 rfl

/-- C1: decoding the encoding of `Ok p` yields `Ok p`, and decoding the
encoding of `Err q` yields `Err q`, given that each payload's decoder
recovers the payload from the wire value its encoder yields (the optional
payload encoding reified to JSON, `null` standing for an absent one). -/
theorem round_trip (Tc : TypeCap α) (Ec : TypeCap β) (p : α) (q : β)
    (hT : Tc.parse_from_json (some (optJson (Tc.to_json p))) = Except.ok p)
    (hE : Ec.parse_from_json (some (optJson (Ec.to_json q))) = Except.ok q) :
    RustResult.parse_from_json Tc Ec (RustResult.to_json Tc Ec (RustResult.Ok p)) =
      Except.ok (RustResult.Ok p) ∧
    RustResult.parse_from_json Tc Ec (RustResult.to_json Tc Ec (RustResult.Err q)) =
      Except.ok (RustResult.Err q) := by
  constructor
  · show RustResult.parse_from_json Tc Ec
      (some (Json.obj [("ok", optJson (Tc.to_json p))])) = _
    rw [parse_from_json_obj]
    show (match Tc.parse_from_json (some (optJson (Tc.to_json p))) with
          | Except.ok t => Except.ok (RustResult.Ok t)
          | Except.error e =>
              Except.error (ParseError.from_message e.into_message)) = _
    rw [hT]
  · show RustResult.parse_from_json Tc Ec
      (some (Json.obj [("err", optJson (Ec.to_json q))])) = _
    rw [parse_from_json_obj]
    show (match Ec.parse_from_json (some (optJson (Ec.to_json q))) with
          | Except.ok e2 => Except.ok (RustResult.Err e2)
          | Except.error e =>
              Except.error (ParseError.from_message e.into_message)) = _
    rw [hE]

/-- Witness for C1 at the spec §8 scenario: `Ok 10` and `Err "invalid"`
round-trip through the integer/string capabilities. -/
theorem round_trip_witness :
    RustResult.parse_from_json intCap strCap
      (RustResult.to_json intCap strCap (RustResult.Ok 10)) =
      Except.ok (RustResult.Ok 10) ∧
    RustResult.parse_from_json intCap strCap
      (RustResult.to_json intCap strCap (RustResult.Err "invalid")) =
      Except.ok (RustResult.Err "invalid") :=
  round_trip intCap strCap 10 "invalid" rfl rfl

/-- C2: the encoder always yields a JSON object with exactly one of the keys
`ok` and `err`: `ok` bound to the payload's own encoding for an `Ok` value,
`err` for an `Err` value, the key present even when the payload's encoder
yields nothing (reified to `null`). -/
theorem to_json_shape (Tc : TypeCap α) (Ec : TypeCap β) (v : RustResult α β) :
    ∃ fields, RustResult.to_json Tc Ec v = some (Json.obj fields) ∧
      ((lookupKey "ok" fields).isSome ↔ ¬ (lookupKey "err" fields).isSome) ∧
      (∀ t, v = RustResult.Ok t →
        lookupKey "ok" fields = some (optJson (Tc.to_json t)) ∧
        lookupKey "err" fields = none) ∧
      (∀ e, v = RustResult.Err e →
        lookupKey "err" fields = some (optJson (Ec.to_json e)) ∧
        lookupKey "ok" fields = none) := by
  cases v with
  | Ok t =>
    refine ⟨[("ok", optJson (Tc.to_json t))], rfl, ?_, ?_, ?_⟩
    · rw [show lookupKey "ok" [("ok", optJson (Tc.to_json t))] =
          some (optJson (Tc.to_json t)) from rfl,
        show lookupKey "err" [("ok", optJson (Tc.to_json t))] = none from rfl]
      simp
    · intro t2 ht
      cases ht
      exact ⟨rfl, rfl⟩
    · intro e he
      exact RustResult.noConfusion he
  | Err e =>
    refine ⟨[("err", optJson (Ec.to_json e))], rfl, ?_, ?_, ?_⟩
    · rw [show lookupKey "err" [("err", optJson (Ec.to_json e))] =
          some (optJson (Ec.to_json e)) from rfl,
        show lookupKey "ok" [("err", optJson (Ec.to_json e))] = none from rfl]
      simp
    · intro t2 ht
      exact RustResult.noConfusion ht
    · intro e2 he
      cases he
      exact ⟨rfl, rfl⟩

/-- Witness for C2 at `Ok 10` under the integer/string capabilities: the
encoding is an object carrying `ok` and not `err`. -/
theorem to_json_shape_witness :
    ∃ fields, RustResult.to_json intCap strCap (RustResult.Ok 10) =
        some (Json.obj fields) ∧
      lookupKey "ok" fields = some (Json.num 10) ∧
      lookupKey "err" fields = none := by
  obtain ⟨fields, h1, _, h3, _⟩ := to_json_shape intCap strCap (RustResult.Ok 10)
  exact ⟨fields, h1, (h3 10 rfl).1, (h3 10 rfl).2⟩

/-- Modelled from the spec: a string capability whose decoder rejects every
input, used to observe that the failure payload's decoder is never
consulted when the `ok` key is present. -/
def strCapAlt : TypeCap String where
  name := "string"
  schema_ref := MetaSchemaRef.Inline (MetaSchema.mk none "string" none [] [] [] [])
  register := fun r => r
  to_json := fun s => some (Json.str s)
  parse_from_json := fun _ => Except.error (ParseError.custom "always rejected")

/-- C3: on an object carrying both `ok` and `err`, the result is determined
by T's decoding of the `ok` value alone, and is the same for every failure
capability — `err` is ignored and E's decoder is never consulted. -/
theorem ok_takes_priority (Tc : TypeCap α) (Ec Ec2 : TypeCap β)
    (fields : List (String × Json)) (X Y : Json)
    (hok : lookupKey "ok" fields = some X)
    (herr : lookupKey "err" fields = some Y) :
    RustResult.parse_from_json Tc Ec (some (Json.obj fields)) =
      (match Tc.parse_from_json (some X) with
       | Except.ok t => Except.ok (RustResult.Ok t)
       | Except.error e =>
           Except.error (ParseError.from_message e.into_message)) ∧
    RustResult.parse_from_json Tc Ec (some (Json.obj fields)) =
      RustResult.parse_from_json Tc Ec2 (some (Json.obj fields)) := by
  constructor
  · rw [parse_from_json_obj, hok]
  · rw [parse_from_json_obj, parse_from_json_obj, hok]

/-- Witness for C3: with both keys present, decoding succeeds as `Ok 10`
and agrees with the run against the always-rejecting failure capability. -/
theorem ok_takes_priority_witness :
    RustResult.parse_from_json intCap strCap
      (some (Json.obj [("ok", Json.num 10), ("err", Json.str "whoops")])) =
      Except.ok (RustResult.Ok 10) ∧
    RustResult.parse_from_json intCap strCap
      (some (Json.obj [("ok", Json.num 10), ("err", Json.str "whoops")])) =
      RustResult.parse_from_json intCap strCapAlt
      (some (Json.obj [("ok", Json.num 10), ("err", Json.str "whoops")])) := by
  have h := ok_takes_priority intCap strCap strCapAlt
    [("ok", Json.num 10), ("err", Json.str "whoops")]
    (Json.num 10) (Json.str "whoops") rfl rfl
  exact ⟨h.1, h.2⟩


/-- Conditional unfolding of the decoder when the `ok` key is present: the
result is T's decoding of that value, wrapped or propagated. -/
theorem parse_obj_ok (Tc : TypeCap α) (Ec : TypeCap β)
    (m : List (String × Json)) (X : Json) (hok : lookupKey "ok" m = some X) :
    RustResult.parse_from_json Tc Ec (some (Json.obj m)) =
      match Tc.parse_from_json (some X) with
      | Except.ok t => Except.ok (RustResult.Ok t)
      | Except.error e => Except.error (ParseError.from_message e.into_message) := by
  rw [parse_from_json_obj, hok]

/-- Conditional unfolding of the decoder when `ok` is absent and `err` is
present: the result is E's decoding of that value, wrapped or propagated. -/
theorem parse_obj_err (Tc : TypeCap α) (Ec : TypeCap β)
    (m : List (String × Json)) (Y : Json)
    (hok : lookupKey "ok" m = none) (herr : lookupKey "err" m = some Y) :
    RustResult.parse_from_json Tc Ec (some (Json.obj m)) =
      match Ec.parse_from_json (some Y) with
      | Except.ok e2 => Except.ok (RustResult.Err e2)
      | Except.error e => Except.error (ParseError.from_message e.into_message) := by
  rw [parse_from_json_obj, hok, herr]

/-- Conditional unfolding of the decoder when both keys are absent: the
failure carries the whole object. -/
theorem parse_obj_neither (Tc : TypeCap α) (Ec : TypeCap β)
    (m : List (String × Json))
    (hok : lookupKey "ok" m = none) (herr : lookupKey "err" m = none) :
    RustResult.parse_from_json Tc Ec (some (Json.obj m)) =
      Except.error (ParseError.expected_type (Json.obj m)) := by
  rw [parse_from_json_obj, hok, herr]

/-- C4: the decoder's failures are classified exactly: absent input fails
with `expected_input`; a present non-object fails with
`custom "expected an object"`; an object with neither `ok` nor `err` fails
with `expected_type` carrying the unmodified input value; and every other
failure on an object input is the propagation of a payload decoder
failure. -/
theorem parse_failure_classes (Tc : TypeCap α) (Ec : TypeCap β) :
    RustResult.parse_from_json Tc Ec none = Except.error ParseError.expected_input ∧
    (∀ j : Json, j.isObj = false →
      RustResult.parse_from_json Tc Ec (some j) =
        Except.error (ParseError.custom "expected an object")) ∧
    (∀ fields, lookupKey "ok" fields = none → lookupKey "err" fields = none →
      RustResult.parse_from_json Tc Ec (some (Json.obj fields)) =
        Except.error (ParseError.expected_type (Json.obj fields))) ∧
    (∀ fields e,
      RustResult.parse_from_json Tc Ec (some (Json.obj fields)) = Except.error e →
      e = ParseError.expected_type (Json.obj fields) ∨
      (∃ X pe, lookupKey "ok" fields = some X ∧
        Tc.parse_from_json (some X) = Except.error pe ∧
        e = ParseError.from_message pe.into_message) ∨
      (∃ Y pe, lookupKey "ok" fields = none ∧ lookupKey "err" fields = some Y ∧
        Ec.parse_from_json (some Y) = Except.error pe ∧
        e = ParseError.from_message pe.into_message)) := by
  refine ⟨rfl, ?_, ?_, ?_⟩
  · intro j hj
    cases j with
    | null => rfl
    | bool b => rfl
    | num n => rfl
    | str s => rfl
    | arr elems => rfl
    | obj fields => simp [Json.isObj] at hj
  · intro fields h1 h2
    exact parse_obj_neither Tc Ec fields h1 h2
  · intro fields e h
    cases hok : lookupKey "ok" fields with
    | some X =>
      rw [parse_obj_ok Tc Ec fields X hok] at h
      cases hT : Tc.parse_from_json (some X) with
      | ok t =>
        rw [hT] at h
        have h4 : Except.ok (RustResult.Ok t) =
            (Except.error e : Except ParseError (RustResult α β)) := h
        exact Except.noConfusion h4
      | error pe =>
        rw [hT] at h
        have h4 : Except.error (ParseError.from_message pe.into_message) =
            (Except.error e : Except ParseError (RustResult α β)) := h
        cases h4
        exact Or.inr (Or.inl ⟨X, pe, rfl, hT, rfl⟩)
    | none =>
      cases herr : lookupKey "err" fields with
      | some Y =>
        rw [parse_obj_err Tc Ec fields Y hok herr] at h
        cases hE : Ec.parse_from_json (some Y) with
        | ok e2 =>
          rw [hE] at h
          have h4 : Except.ok (RustResult.Err e2) =
              (Except.error e : Except ParseError (RustResult α β)) := h
          exact Except.noConfusion h4
        | error pe =>
          rw [hE] at h
          have h4 : Except.error (ParseError.from_message pe.into_message) =
              (Except.error e : Except ParseError (RustResult α β)) := h
          cases h4
          exact Or.inr (Or.inr ⟨Y, pe, rfl, rfl, hE, rfl⟩)
      | none =>
        rw [parse_obj_neither Tc Ec fields hok herr] at h
        cases h
        exact Or.inl rfl

/-- Witness for C4: the three non-payload failure classes at concrete
inputs — absent input, the number `42`, and the object with only a `foo`
key. -/
theorem parse_failure_classes_witness :
    RustResult.parse_from_json intCap strCap none =
      Except.error ParseError.expected_input ∧
    RustResult.parse_from_json intCap strCap (some (Json.num 42)) =
      Except.error (ParseError.custom "expected an object") ∧
    RustResult.parse_from_json intCap strCap
      (some (Json.obj [("foo", Json.num 1)])) =
      Except.error (ParseError.expected_type (Json.obj [("foo", Json.num 1)])) := by
  obtain ⟨h1, h2, h3, _⟩ := parse_failure_classes intCap strCap
  exact ⟨h1, h2 (Json.num 42) rfl, h3 [("foo", Json.num 1)] rfl rfl⟩

/-- C6: when the chosen variant's payload decoder fails, the decoder
propagates a failure whose message is, verbatim, the payload decoder's
own error message — for the `ok` branch through T and, when `ok` is
absent, for the `err` branch through E. -/
theorem payload_error_verbatim (Tc : TypeCap α) (Ec : TypeCap β)
    (fields : List (String × Json)) :
    (∀ X pe, lookupKey "ok" fields = some X →
      Tc.parse_from_json (some X) = Except.error pe →
      ∃ e2, RustResult.parse_from_json Tc Ec (some (Json.obj fields)) =
          Except.error e2 ∧ e2.into_message = pe.into_message) ∧
    (∀ Y pe, lookupKey "ok" fields = none → lookupKey "err" fields = some Y →
      Ec.parse_from_json (some Y) = Except.error pe →
      ∃ e2, RustResult.parse_from_json Tc Ec (some (Json.obj fields)) =
          Except.error e2 ∧ e2.into_message = pe.into_message) := by
  constructor
  · intro X pe hok hT
    refine ⟨ParseError.from_message pe.into_message, ?_, rfl⟩
    rw [parse_obj_ok Tc Ec fields X hok, hT]
  · intro Y pe hok herr hE
    refine ⟨ParseError.from_message pe.into_message, ?_, rfl⟩
    rw [parse_obj_err Tc Ec fields Y hok herr, hE]

/-- Witness for C6: the integer decoder rejects `"bad"` with the message
`expected an integer`, and the composite failure carries that exact
message. -/
theorem payload_error_verbatim_witness :
    ∃ e2, RustResult.parse_from_json intCap strCap
        (some (Json.obj [("ok", Json.str "bad")])) = Except.error e2 ∧
      e2.into_message = "expected an integer" := by
  have h := (payload_error_verbatim intCap strCap [("ok", Json.str "bad")]).1
    (Json.str "bad") (ParseError.custom "expected an integer") rfl rfl
  exact h

/-- C9: when `ok` is present but its value is rejected by T, the decoder
fails with the propagated payload error and never succeeds by falling back
to an `err` key, even one whose value E would accept. -/
theorem no_fallback_to_err (Tc : TypeCap α) (Ec : TypeCap β)
    (fields : List (String × Json)) (X Y : Json) (pe : ParseError) (q : β)
    (hok : lookupKey "ok" fields = some X)
    (hfail : Tc.parse_from_json (some X) = Except.error pe)
    (herr : lookupKey "err" fields = some Y)
    (hgood : Ec.parse_from_json (some Y) = Except.ok q) :
    RustResult.parse_from_json Tc Ec (some (Json.obj fields)) =
      Except.error (ParseError.from_message pe.into_message) ∧
    ∀ r, RustResult.parse_from_json Tc Ec (some (Json.obj fields)) ≠
      Except.ok r := by
  have h1 : RustResult.parse_from_json Tc Ec (some (Json.obj fields)) =
      Except.error (ParseError.from_message pe.into_message) := by
    rw [parse_obj_ok Tc Ec fields X hok, hfail]
  refine ⟨h1, ?_⟩
  intro r hr
  rw [h1] at hr
  exact Except.noConfusion hr

/-- Witness for C9: `ok` holds the unparsable `"bad"` while `err` holds
`"fine"`, which the string decoder would accept; decoding still fails with
the propagated integer error. -/
theorem no_fallback_to_err_witness :
    RustResult.parse_from_json intCap strCap
      (some (Json.obj [("ok", Json.str "bad"), ("err", Json.str "fine")])) =
      Except.error (ParseError.from_message "expected an integer") := by
  have h := no_fallback_to_err intCap strCap
    [("ok", Json.str "bad"), ("err", Json.str "fine")]
    (Json.str "bad") (Json.str "fine")
    (ParseError.custom "expected an integer") "fine" rfl rfl rfl rfl
  exact h.1

/-- C10: unknown keys are ignored: an object with an `ok` key decodes
exactly like the object holding only that `ok` binding, and an object with
an `err` key but no `ok` key decodes exactly like the object holding only
that `err` binding. -/
theorem extra_keys_ignored (Tc : TypeCap α) (Ec : TypeCap β)
    (fields : List (String × Json)) :
    (∀ X, lookupKey "ok" fields = some X →
      RustResult.parse_from_json Tc Ec (some (Json.obj fields)) =
        RustResult.parse_from_json Tc Ec (some (Json.obj [("ok", X)]))) ∧
    (∀ Y, lookupKey "ok" fields = none → lookupKey "err" fields = some Y →
      RustResult.parse_from_json Tc Ec (some (Json.obj fields)) =
        RustResult.parse_from_json Tc Ec (some (Json.obj [("err", Y)]))) := by
  constructor
  · intro X hok
    rw [parse_obj_ok Tc Ec fields X hok,
      parse_obj_ok Tc Ec [("ok", X)] X rfl]
  · intro Y hok herr
    rw [parse_obj_err Tc Ec fields Y hok herr,
      parse_obj_err Tc Ec [("err", Y)] Y rfl rfl]

/-- Witness for C10: an extra `extra` key next to `ok` leaves the decoded
value unchanged, and likewise next to `err`. -/
theorem extra_keys_ignored_witness :
    RustResult.parse_from_json intCap strCap
      (some (Json.obj [("ok", Json.num 10), ("extra", Json.null)])) =
      RustResult.parse_from_json intCap strCap
        (some (Json.obj [("ok", Json.num 10)])) ∧
    RustResult.parse_from_json intCap strCap
      (some (Json.obj [("extra", Json.null), ("err", Json.str "invalid")])) =
      RustResult.parse_from_json intCap strCap
        (some (Json.obj [("err", Json.str "invalid")])) := by
  constructor
  · exact (extra_keys_ignored intCap strCap
      [("ok", Json.num 10), ("extra", Json.null)]).1 (Json.num 10) rfl
  · exact (extra_keys_ignored intCap strCap
      [("extra", Json.null), ("err", Json.str "invalid")]).2
      (Json.str "invalid") rfl rfl

/-- C5: `schema_ref()` is always an inline descriptor declaring an any-of of
exactly two alternatives — T's descriptor merged with an added `ok` property
of T's descriptor type, and E's descriptor merged with an added `err`
property of E's descriptor type — each alternative an inline schema marking
its added key as required, with no discriminator declared. -/
theorem schema_ref_shape (Tc : TypeCap α) (Ec : TypeCap β) :
    ∃ s : MetaSchema, RustResult.schema_ref Tc Ec = MetaSchemaRef.Inline s ∧
      s.discriminator = none ∧
      s.any_of.length = 2 ∧
      s.any_of = [
        Tc.schema_ref.merge
          (MetaSchema.mk none "" none [] [] [("ok", Tc.schema_ref)] []),
        Ec.schema_ref.merge
          (MetaSchema.mk none "" none [] [] [("err", Ec.schema_ref)] []) ] ∧
      (∃ s1, Tc.schema_ref.merge
          (MetaSchema.mk none "" none [] [] [("ok", Tc.schema_ref)] []) =
          MetaSchemaRef.Inline s1 ∧
        ("ok", Tc.schema_ref) ∈ s1.properties ∧ "ok" ∈ s1.required) ∧
      (∃ s2, Ec.schema_ref.merge
          (MetaSchema.mk none "" none [] [] [("err", Ec.schema_ref)] []) =
          MetaSchemaRef.Inline s2 ∧
        ("err", Ec.schema_ref) ∈ s2.properties ∧ "err" ∈ s2.required) := by
  refine ⟨_, rfl, rfl, ?_, rfl, ?_, ?_⟩
  · rfl
  · cases hT : Tc.schema_ref with
    | Reference n =>
      refine ⟨_, rfl, ?_, ?_⟩
      · simp [MetaSchema.properties]
      · simp [MetaSchema.required, MetaSchema.properties]
    | Inline base =>
      refine ⟨_, rfl, ?_, ?_⟩
      · simp [MetaSchema.properties]
      · simp [MetaSchema.required, MetaSchema.properties]
  · cases hE : Ec.schema_ref with
    | Reference n =>
      refine ⟨_, rfl, ?_, ?_⟩
      · simp [MetaSchema.properties]
      · simp [MetaSchema.required, MetaSchema.properties]
    | Inline base =>
      refine ⟨_, rfl, ?_, ?_⟩
      · simp [MetaSchema.properties]
      · simp [MetaSchema.required, MetaSchema.properties]
